import Mathlib

/-!
Verification of the "Justice Made Clear" document-understanding pipeline
(backend services: normalization, classification, simplification, safety
check).  The Python services are shallowly embedded as executable Lean
functions over `String` / `List Char`; the external LLM capability is
modelled as an explicit oracle argument.  Python floats are modelled as
rationals; Python regex searches are embedded as explicit backtracking
scanners with the same alternative order and greediness.
-/

set_option linter.unusedVariables false

/-! ## Character-level helpers (Python string semantics) -/

/-- Python `str.upper` restricted to ASCII plus the Spanish accented
letters that occur in this code base; other characters are unchanged. -/
def charUpper (c : Char) : Char :=
  if 'a' ≤ c ∧ c ≤ 'z' then Char.ofNat (c.toNat - 32)
  else if c = 'á' then 'Á' else if c = 'é' then 'É' else if c = 'í' then 'Í'
  else if c = 'ó' then 'Ó' else if c = 'ú' then 'Ú' else if c = 'ñ' then 'Ñ'
  else if c = 'ü' then 'Ü' else c

/-- Python `str.lower` restricted to ASCII plus Spanish accented letters. -/
def charLower (c : Char) : Char :=
  if 'A' ≤ c ∧ c ≤ 'Z' then Char.ofNat (c.toNat + 32)
  else if c = 'Á' then 'á' else if c = 'É' then 'é' else if c = 'Í' then 'í'
  else if c = 'Ó' then 'ó' else if c = 'Ú' then 'ú' else if c = 'Ñ' then 'ñ'
  else if c = 'Ü' then 'ü' else c

def pyUpper (s : String) : String := String.mk (s.data.map charUpper)

def pyLower (s : String) : String := String.mk (s.data.map charLower)

/-- Python `\s` (whitespace class) on the characters used here. -/
def isSpaceCh (c : Char) : Bool :=
  c == ' ' || c == '\t' || c == '\n' || c == '\r' || c == '\x0b' || c == '\x0c'

/-- Python `\w` (word character) on ASCII plus Spanish accented letters. -/
def isWordCh (c : Char) : Bool :=
  c.isAlphanum || c == '_' ||
    (['á','é','í','ó','ú','ñ','ü','Á','É','Í','Ó','Ú','Ñ','Ü'].contains c)

def isDigitCh (c : Char) : Bool := c.isDigit

/-- Case-insensitive character comparison (Python `re.IGNORECASE`). -/
def ciEq (a b : Char) : Bool := charUpper a == charUpper b

/-- Python `str.strip`: drop whitespace from both ends. -/
def pyStrip (s : String) : String :=
  String.mk (((s.data.dropWhile isSpaceCh).reverse.dropWhile isSpaceCh).reverse)

/-- Python `str.isdigit` on an ASCII string (nonempty, all digits). -/
def pyIsDigit (s : String) : Bool :=
  !s.data.isEmpty && s.data.all isDigitCh

/-- `sep.join(xs)` for strings. -/
def joinSep (sep : String) : List String → String
  | [] => ""
  | [x] => x
  | x :: xs => x ++ sep ++ joinSep sep xs

/-- Substring containment: `needle in hay` for Python strings. -/
def isPrefixL : List Char → List Char → Bool
  | [], _ => true
  | _ :: _, [] => false
  | a :: as, b :: bs => a == b && isPrefixL as bs

def containsLAux (n : List Char) : List Char → Bool
  | [] => isPrefixL n []
  | h@(_ :: t) => isPrefixL n h || containsLAux n t

/-- `containsSub n h` iff the string `n` occurs as a substring of `h`. -/
def containsSub (n h : String) : Bool := containsLAux n.data h.data

/-- Index of the first occurrence of `n` in `h` (Python `str.find`),
`none` when absent. -/
def firstIdxAux (n : List Char) : Nat → List Char → Option Nat
  | i, [] => if isPrefixL n [] then some i else none
  | i, h@(_ :: t) => if isPrefixL n h then some i else firstIdxAux n (i + 1) t

def firstIdx (n h : String) : Option Nat := firstIdxAux n.data 0 h.data

/-- Python `str.splitlines` (handling `\n`, `\r`, `\r\n`). -/
def pySplitlinesAux : Nat → List Char → List Char → List String
  | 0, cur, _ => [String.mk cur.reverse]
  | _ + 1, cur, [] => [String.mk cur.reverse]
  | f + 1, cur, '\r' :: '\n' :: rest =>
    String.mk cur.reverse :: (if rest.isEmpty then [] else pySplitlinesAux f [] rest)
  | f + 1, cur, '\n' :: rest =>
    String.mk cur.reverse :: (if rest.isEmpty then [] else pySplitlinesAux f [] rest)
  | f + 1, cur, '\r' :: rest =>
    String.mk cur.reverse :: (if rest.isEmpty then [] else pySplitlinesAux f [] rest)
  | f + 1, cur, c :: rest => pySplitlinesAux f (c :: cur) rest

def pySplitlines (s : String) : List String :=
  if s.data.isEmpty then [] else pySplitlinesAux (s.data.length + 1) [] s.data

/-- Python `str.split('\n')`. -/
def splitNlAux : Nat → List Char → List Char → List String
  | 0, cur, _ => [String.mk cur.reverse]
  | _ + 1, cur, [] => [String.mk cur.reverse]
  | f + 1, cur, '\n' :: rest => String.mk cur.reverse :: splitNlAux f [] rest
  | f + 1, cur, c :: rest => splitNlAux f (c :: cur) rest

def splitNl (s : String) : List String := splitNlAux (s.data.length + 1) [] s.data

/-- Python truthy `a or b` on strings. -/
def pyOrS (a b : String) : String := if a = "" then b else a

/-- Value of an `Optional[str]` under Python `x or default`. -/
def pyOrOpt (a : Option String) (b : String) : String :=
  match a with
  | some s => if s = "" then b else s
  | none => b

/-! ## Regex scanners

Each Python `re` pattern used by the services is embedded as an explicit
scanner with the same alternative order, greediness and word-boundary
semantics.  `litMatchCI`/`litMatchCS` return the consumed original
characters (captures keep the original text) and the remaining suffix. -/

def litMatchCI : List Char → List Char → Option (List Char × List Char)
  | [], s => some ([], s)
  | _ :: _, [] => none
  | p :: ps, c :: cs =>
    if ciEq p c then (litMatchCI ps cs).map (fun m => (c :: m.1, m.2)) else none

def litMatchCS : List Char → List Char → Option (List Char × List Char)
  | [], s => some ([], s)
  | _ :: _, [] => none
  | p :: ps, c :: cs =>
    if p == c then (litMatchCS ps cs).map (fun m => (c :: m.1, m.2)) else none

/-- `\b` before a word-character match: previous char absent or non-word. -/
def boundaryBefore (prev : Option Char) : Bool :=
  match prev with
  | none => true
  | some c => !isWordCh c

/-- `\b` after a word-character match: next char absent or non-word. -/
def boundaryAfter (rest : List Char) : Bool :=
  match rest with
  | [] => true
  | c :: _ => !isWordCh c

/-- Generic scanner: `re.search` tries the pattern at every position,
left to right, tracking the previous character for `\b`. -/
def scanAny (f : Option Char → List Char → Bool) : Option Char → List Char → Bool
  | prev, [] => f prev []
  | prev, s@(c :: cs) => f prev s || scanAny f (some c) cs

def firstSome {α β : Type} (xs : List α) (f : α → Option β) : Option β :=
  match xs with
  | [] => none
  | x :: rest =>
    match f x with
    | some y => some y
    | none => firstSome rest f

/-- Match a `\s+`-separated word sequence case-insensitively, returning
the suffix after the last word. -/
def matchWordsCI : List String → List Char → Option (List Char)
  | [], s => some s
  | [w], s => (litMatchCI w.data s).map (fun m => m.2)
  | w :: ws, s =>
    match litMatchCI w.data s with
    | some m =>
      let sp := m.2.span isSpaceCh
      if sp.1.isEmpty then none else matchWordsCI ws sp.2
    | none => none

/-- `re.search(r"\b(alt1|alt2|...)\b", t, re.IGNORECASE)` where each
alternative is a `\s+`-separated word sequence. -/
def searchWordAltsCI (alts : List (List String)) (t : String) : Bool :=
  scanAny
    (fun prev s =>
      boundaryBefore prev &&
        alts.any (fun a =>
          match matchWordsCI a s with
          | some rest => boundaryAfter rest
          | none => false))
    none t.data

/-- `re.search(r"\bW\b", t)` (case-sensitive single word). -/
def searchWordCS (w : String) (t : String) : Bool :=
  scanAny
    (fun prev s =>
      boundaryBefore prev &&
        (match litMatchCS w.data s with
         | some m => boundaryAfter m.2
         | none => false))
    none t.data

/-- Scan for `\bw2\b` without crossing a newline (the `.*` of a pattern
`\bw1\b.*\bw2\b` without `re.DOTALL`). -/
def scanSameLine (w2 : List Char) : Option Char → List Char → Bool
  | prev, [] => false
  | prev, s@(c :: cs) =>
    (boundaryBefore prev &&
      (match litMatchCI w2 s with
       | some m => boundaryAfter m.2
       | none => false)) ||
    (if c == '\n' then false else scanSameLine w2 (some c) cs)

/-- `re.search(r"\bW1\b.*\bW2\b", t, re.IGNORECASE)` (no DOTALL). -/
def searchTwoWordsLine (w1 w2 : String) (t : String) : Bool :=
  scanAny
    (fun prev s =>
      boundaryBefore prev &&
        (match litMatchCI w1.data s with
         | some m =>
           boundaryAfter m.2 &&
             scanSameLine w2.data (some (w1.data.getLastD ' ')) m.2
         | none => false))
    none t.data

/-! ## utils/date_amount_parsing.py -/

/-- `re.findall` driver: try the matcher at each position left to right;
on success record the capture and continue after it.  `prev` tracks the
character before the current position for `\b`. -/
def findallAux (m : Option Char → List Char → Option (List Char × List Char)) :
    Nat → Option Char → List Char → List String
  | 0, _, _ => []
  | _ + 1, _, [] => []
  | f + 1, prev, s@(c :: cs) =>
    match m prev s with
    | some (mt, rest) => String.mk mt :: findallAux m f mt.getLast? rest
    | none => findallAux m f (some c) cs

def findall (m : Option Char → List Char → Option (List Char × List Char))
    (t : String) : List String :=
  findallAux m (t.data.length + 1) none t.data

/-- Class `[\d.,]` of `AMOUNT_REGEX_COP`. -/
def isAmountCh (c : Char) : Bool := c.isDigit || c == '.' || c == ','

/-- Matcher for `((?:\$?\s*)[\d.,]+\s?(?:COP|pesos)\b)`, IGNORECASE. -/
def matchAmount (prev : Option Char) (s : List Char) :
    Option (List Char × List Char) :=
  let step1 : List Char × List Char :=
    match s with
    | '$' :: r => (['$'], r)
    | _ => ([], s)
  let ws := step1.2.span isSpaceCh
  let num := ws.2.span isAmountCh
  if num.1.isEmpty then none
  else
    let tryCur : List Char → Option (List Char × List Char) := fun t =>
      match litMatchCI "COP".data t with
      | some m => if boundaryAfter m.2 then some m else none
      | none =>
        match litMatchCI "pesos".data t with
        | some m => if boundaryAfter m.2 then some m else none
        | none => none
    match num.2 with
    | c :: rest =>
      if isSpaceCh c then
        match tryCur rest with
        | some m => some (step1.1 ++ ws.1 ++ num.1 ++ c :: m.1, m.2)
        | none => none
      else
        match tryCur num.2 with
        | some m => some (step1.1 ++ ws.1 ++ num.1 ++ m.1, m.2)
        | none => none
    | [] => none

def isDateSep (c : Char) : Bool := c == '/' || c == '.' || c == '-'

def takeDigits : Nat → List Char → Option (List Char × List Char)
  | 0, s => some ([], s)
  | _ + 1, [] => none
  | n + 1, c :: cs =>
    if isDigitCh c then (takeDigits n cs).map (fun m => (c :: m.1, m.2)) else none

/-- Matcher for `(\b\d{2}[/.-]\d{2}[/.-]\d{4})\b` (DATE_REGEX_NUMERIC). -/
def matchDateNumeric (prev : Option Char) (s : List Char) :
    Option (List Char × List Char) :=
  if !boundaryBefore prev then none
  else
    match takeDigits 2 s with
    | none => none
    | some d1 =>
      match d1.2 with
      | sep1 :: r1 =>
        if !isDateSep sep1 then none
        else
          match takeDigits 2 r1 with
          | none => none
          | some d2 =>
            match d2.2 with
            | sep2 :: r2 =>
              if !isDateSep sep2 then none
              else
                match takeDigits 4 r2 with
                | none => none
                | some d3 =>
                  if boundaryAfter d3.2 then
                    some (d1.1 ++ sep1 :: d2.1 ++ sep2 :: d3.1, d3.2)
                  else none
            | [] => none
      | [] => none

def SPANISH_MONTHS : List String :=
  ["enero", "febrero", "marzo", "abril", "mayo", "junio", "julio",
   "agosto", "septiembre", "octubre", "noviembre", "diciembre"]

/-- Tail `\s+de\s+(months)\s+de\s+\d{4}\b` of DATE_REGEX_SPANISH, starting
after the day digits. -/
def matchSpanishTail (t : List Char) : Option (List Char × List Char) :=
  let w1 := t.span isSpaceCh
  if w1.1.isEmpty then none
  else
    match litMatchCI "de".data w1.2 with
    | none => none
    | some de1 =>
      let w2 := de1.2.span isSpaceCh
      if w2.1.isEmpty then none
      else
        firstSome SPANISH_MONTHS (fun mo =>
          match litMatchCI mo.data w2.2 with
          | none => none
          | some m =>
            let w3 := m.2.span isSpaceCh
            if w3.1.isEmpty then none
            else
              match litMatchCI "de".data w3.2 with
              | none => none
              | some de2 =>
                let w4 := de2.2.span isSpaceCh
                if w4.1.isEmpty then none
                else
                  match takeDigits 4 w4.2 with
                  | none => none
                  | some y =>
                    if boundaryAfter y.2 then
                      some (w1.1 ++ de1.1 ++ w2.1 ++ m.1 ++ w3.1 ++ de2.1 ++
                              w4.1 ++ y.1, y.2)
                    else none)

/-- Matcher for `(\b\d{1,2}\s+de\s+MONTHS\s+de\s+\d{4}\b)`, IGNORECASE:
greedy `\d{1,2}` (two digits first, then backtrack to one). -/
def matchDateSpanish (prev : Option Char) (s : List Char) :
    Option (List Char × List Char) :=
  if !boundaryBefore prev then none
  else
    match s with
    | a :: b :: rest =>
      if isDigitCh a && isDigitCh b then
        match matchSpanishTail rest with
        | some m => some (a :: b :: m.1, m.2)
        | none =>
          if isDigitCh a then
            match matchSpanishTail (b :: rest) with
            | some m => some (a :: m.1, m.2)
            | none => none
          else none
      else if isDigitCh a then
        match matchSpanishTail (b :: rest) with
        | some m => some (a :: m.1, m.2)
        | none => none
      else none
    | [a] =>
      if isDigitCh a then
        match matchSpanishTail [] with
        | some m => some (a :: m.1, m.2)
        | none => none
      else none
    | [] => none

/-- The leading alternatives of DEADLINE_REGEX, in source order; each is
matched literally (IGNORECASE, literal single spaces). -/
def matchDeadlineHead (s : List Char) : Option (List Char × List Char) :=
  match litMatchCI "dentro de".data s with
  | some m => some m
  | none =>
  match litMatchCI "en el plazo de".data s with
  | some m => some m
  | none =>
  match litMatchCI "plazo de".data s with
  | some m => some m
  | none =>
  match litMatchCI "para recurrir".data s with
  | some m => some m
  | none =>
  match litMatchCI "para interponer ".data s with
  | some m =>
    (match litMatchCI "el ".data m.2 with
     | some m2 =>
       (match litMatchCI "recurso".data m2.2 with
        | some m3 => some (m.1 ++ m2.1 ++ m3.1, m3.2)
        | none =>
          match litMatchCI "recurso".data m.2 with
          | some m3 => some (m.1 ++ m3.1, m3.2)
          | none => none)
     | none =>
       match litMatchCI "recurso".data m.2 with
       | some m3 => some (m.1 ++ m3.1, m3.2)
       | none => none)
  | none =>
  match litMatchCI "recurso de apelaci".data s with
  | some m =>
    (match m.2 with
     | c :: r =>
       if charLower c == 'o' || charLower c == 'ó' then
         match litMatchCI "n".data r with
         | some m2 => some (m.1 ++ c :: m2.1, m2.2)
         | none => none
       else none
     | [] => none)
  | none => none

/-- `\d+\s+d[íi]as(?:\s+h[áa]biles)?\b` — the numeric tail of the
deadline pattern, starting at the digits. -/
def matchDeadlineNum (t : List Char) : Option (List Char × List Char) :=
  let ds := t.span isDigitCh
  if ds.1.isEmpty then none
  else
    let w1 := ds.2.span isSpaceCh
    if w1.1.isEmpty then none
    else
      match w1.2 with
      | d :: i :: rest =>
        if ciEq d 'd' && (charLower i == 'í' || charLower i == 'i') then
          match litMatchCI "as".data rest with
          | none => none
          | some asm =>
            let withHab : Option (List Char × List Char) :=
              let w2 := asm.2.span isSpaceCh
              if w2.1.isEmpty then none
              else
                match w2.2 with
                | h :: a2 :: r2 =>
                  if ciEq h 'h' && (charLower a2 == 'á' || charLower a2 == 'a') then
                    match litMatchCI "biles".data r2 with
                    | some bm =>
                      if boundaryAfter bm.2 then
                        some (w2.1 ++ h :: a2 :: bm.1, bm.2)
                      else none
                    | none => none
                  else none
                | _ => none
            match withHab with
            | some hm => some (ds.1 ++ w1.1 ++ d :: i :: asm.1 ++ hm.1, hm.2)
            | none =>
              if boundaryAfter asm.2 then
                some (ds.1 ++ w1.1 ++ d :: i :: asm.1, asm.2)
              else none
        else none
      | _ => none

/-- Matcher for DEADLINE_REGEX (IGNORECASE): head alternative, then
`\s*(?:de\s*)?`, then the numeric tail; the optional `de` is tried
greedily and dropped on failure. -/
def matchDeadline (prev : Option Char) (s : List Char) :
    Option (List Char × List Char) :=
  if !boundaryBefore prev then none
  else
    match matchDeadlineHead s with
    | none => none
    | some hd =>
      let w0 := hd.2.span isSpaceCh
      let withDe : Option (List Char × List Char) :=
        match litMatchCI "de".data w0.2 with
        | some dm =>
          let wd := dm.2.span isSpaceCh
          match matchDeadlineNum wd.2 with
          | some nm => some (dm.1 ++ wd.1 ++ nm.1, nm.2)
          | none => none
        | none => none
      match withDe with
      | some dn => some (hd.1 ++ w0.1 ++ dn.1, dn.2)
      | none =>
        match matchDeadlineNum w0.2 with
        | some nm => some (hd.1 ++ w0.1 ++ nm.1, nm.2)
        | none => none

/-- `extract_dates` (numeric matches, then Spanish-month matches). -/
def extract_dates (text : String) : List String :=
  if text = "" then []
  else findall matchDateNumeric text ++ findall matchDateSpanish text

/-- `extract_deadlines`. -/
def extract_deadlines (text : String) : List String :=
  if text = "" then [] else findall matchDeadline text

/-- `extract_amounts`. -/
def extract_amounts (text : String) : List String :=
  if text = "" then [] else findall matchAmount text

/-! ## schemas.py (pydantic DTOs) -/

structure DocumentSection where
  name : String
  content : Option String
  confidence : Option ℚ
deriving DecidableEq

structure DocumentMetadata where
  sourceType : String
  language : Option String
  pageCount : Option Int
  charLength : Option Int
  /-- `extra: Dict[str, str]`, modelled as an association list with
  unique keys; `dictGet`/`dictSet` mirror `dict.get` and item assignment. -/
  extra : List (String × String)
deriving DecidableEq

def dictGet : List (String × String) → String → Option String
  | [], _ => none
  | (k, v) :: rest, key => if k = key then some v else dictGet rest key

def dictSet : List (String × String) → String → String → List (String × String)
  | [], key, v => [(key, v)]
  | (k, w) :: rest, key, v =>
    if k = key then (key, v) :: rest else (k, w) :: dictSet rest key v

structure IngestResult where
  rawText : String
  metadata : DocumentMetadata
deriving DecidableEq

structure SegmentedDocument where
  rawText : String
  normalizedText : String
  sections : List DocumentSection
  metadata : Option DocumentMetadata
  /-- Dynamic attribute set by `NormalizationService.normalize` via
  `setattr` (not a declared pydantic field); `none` when absent. -/
  falloLiteral : Option String
deriving DecidableEq

structure ClassificationResult where
  docType : String
  docSubtype : String
  confidence : ℚ
  source : String
  explanations : List String
deriving DecidableEq

structure DecisionFallo where
  whoWins : String
  costs : String
  plainText : String
  falloLiteral : String
deriving DecidableEq

structure HeaderSummary where
  court : String
  date : String
  caseNumber : String
  resolutionNumber : String
  procedureType : String
  judge : String
deriving DecidableEq

structure PartiesSummary where
  plaintiff : String
  plaintiffRepresentatives : String
  defendant : String
  defendantRepresentatives : String
deriving DecidableEq

/-- The dict returned by `_normalize_payload`. -/
structure StructuredPayload where
  headerSummary : HeaderSummary
  partiesSummary : PartiesSummary
  proceduralContext : String
  decisionFallo : DecisionFallo
deriving DecidableEq

/-- Raw JSON payload parsed from the rewriting capability by `_call_llm`
(`{}` and missing keys are modelled by `none` fields); a call failure
yields the empty payload. -/
structure RawHeader where
  court : Option String
  date : Option String
  caseNumber : Option String
  resolutionNumber : Option String
  procedureType : Option String
  judge : Option String
deriving DecidableEq

structure RawParties where
  plaintiff : Option String
  plaintiffRepresentatives : Option String
  defendant : Option String
  defendantRepresentatives : Option String
deriving DecidableEq

structure RawDecision where
  plainText : Option String
deriving DecidableEq

structure LLMPayload where
  headerSummary : Option RawHeader
  partiesSummary : Option RawParties
  proceduralContext : Option String
  decisionFallo : Option RawDecision
deriving DecidableEq

def emptyRawHeader : RawHeader := ⟨none, none, none, none, none, none⟩
def emptyRawParties : RawParties := ⟨none, none, none, none⟩
def emptyPayload : LLMPayload := ⟨none, none, none, none⟩

structure SimplificationResult where
  simplifiedText : String
  docType : String
  docSubtype : String
  headerSummary : HeaderSummary
  partiesSummary : PartiesSummary
  proceduralContext : String
  /-- Passed as `decisionFallo=` to the constructor; `Option` because the
  declared pydantic schema does not carry the field (absent at runtime),
  and the safety checker reads it defensively via `getattr`. -/
  decisionFallo : Option DecisionFallo
  importantSections : List DocumentSection
  strategy : String
  provider : String
  truncated : Bool
  warnings : List String
deriving DecidableEq

structure LegalGuide where
  meaningForYou : String
  whatToDoNow : String
  whatHappensNext : String
  deadlinesAndRisks : String
  provider : String
deriving DecidableEq

structure SafetyIssue where
  code : String
  message : String
  severity : String
deriving DecidableEq

structure SafetyCheckResult where
  isSafe : Bool
  issues : List SafetyIssue
  ruleBasedFlags : List String
  llmVerdict : Option String
deriving DecidableEq

/-- Dict returned by `SafetyCheckService._call_verifier`; `none` models
the `LLMClientError` branch that returns `None`. -/
structure VerifierOutput where
  is_safe : Bool
  warnings : List String
  verdict : Option String
  rawResponse : String
deriving DecidableEq

/-! ## utils/text_cleaning.py -/

/-- `unidecode.unidecode` restricted per character: identity on ASCII,
standard transliteration for the Spanish characters used here; characters
outside this set are kept unchanged (approximation; none occur in the
inputs considered). -/
def translitChar (c : Char) : String :=
  if c.toNat < 128 then String.mk [c]
  else if c = 'á' || c = 'à' then "a" else if c = 'é' || c = 'è' then "e"
  else if c = 'í' || c = 'ì' then "i" else if c = 'ó' || c = 'ò' then "o"
  else if c = 'ú' || c = 'ù' then "u" else if c = 'ñ' then "n"
  else if c = 'ü' then "u" else if c = 'Á' then "A" else if c = 'É' then "E"
  else if c = 'Í' then "I" else if c = 'Ó' then "O" else if c = 'Ú' then "U"
  else if c = 'Ñ' then "N" else if c = 'Ü' then "U"
  else if c = 'º' then "o" else if c = 'ª' then "a"
  else String.mk [c]

def translit (s : String) : String :=
  String.mk (s.data.foldr (fun c acc => (translitChar c).data ++ acc) [])

/-- `re.sub(r'-\s*\n\s*', '', text)`: a hyphen followed by a whitespace
run containing a newline is removed together with the whole run. -/
def stripEolHyphensAux : Nat → List Char → List Char
  | 0, _ => []
  | _ + 1, [] => []
  | f + 1, c :: rest =>
    if c = '-' then
      let sp := rest.span isSpaceCh
      if sp.1.contains '\n' then stripEolHyphensAux f sp.2
      else c :: stripEolHyphensAux f rest
    else c :: stripEolHyphensAux f rest

def stripEolHyphens (s : String) : String :=
  String.mk (stripEolHyphensAux (s.data.length + 1) s.data)

def sanitize_characters (s : String) : String :=
  if s = "" then "" else translit (stripEolHyphens s)

def remove_repeated_headers (s : String) : String :=
  if s = "" then ""
  else joinSep "\n" ((splitNl s).filter (fun l => !(pyIsDigit (pyStrip l))))

/-- `text.replace('\r\n', '\n')`. -/
def replaceCrLfAux : Nat → List Char → List Char
  | 0, _ => []
  | _ + 1, [] => []
  | f + 1, '\r' :: '\n' :: rest => '\n' :: replaceCrLfAux f rest
  | f + 1, c :: rest => c :: replaceCrLfAux f rest

/-- `re.sub(r'\n{3,}', '\n\n', text)`. -/
def collapseNewlinesAux : Nat → List Char → List Char
  | 0, _ => []
  | _ + 1, [] => []
  | f + 1, c :: rest =>
    if c = '\n' then
      let run := rest.span (fun d => d == '\n')
      (if run.1.length + 1 ≥ 3 then ['\n', '\n']
       else '\n' :: run.1) ++ collapseNewlinesAux f run.2
    else c :: collapseNewlinesAux f rest

def isHSpace (c : Char) : Bool := c == ' ' || c == '\t'

/-- `re.sub(r'[ \t]{2,}', ' ', text)` (a single space or tab is kept). -/
def collapseSpacesAux : Nat → List Char → List Char
  | 0, _ => []
  | _ + 1, [] => []
  | f + 1, c :: rest =>
    if isHSpace c then
      let run := rest.span isHSpace
      (if run.1.length + 1 ≥ 2 then [' '] else [c]) ++ collapseSpacesAux f run.2
    else c :: collapseSpacesAux f rest

def normalize_whitespace (s : String) : String :=
  if s = "" then ""
  else
    let s1 := String.mk (replaceCrLfAux (s.data.length + 1) s.data)
    let s2 := String.mk (collapseNewlinesAux (s1.data.length + 1) s1.data)
    let s3 := String.mk (collapseSpacesAux (s2.data.length + 1) s2.data)
    pyStrip (joinSep "\n" ((splitNl s3).map pyStrip))

/-! ## services/normalization_service.py -/

def SECTION_KEYWORDS : List (String × List String) :=
  [("ENCABEZADO", ["JUZGADO", "MAGISTRADO", "AUDIENCIA PROVINCIAL", "TRIBUNAL SUPERIOR"]),
   ("ANTECEDENTES DE HECHO", ["ANTECEDENTES DE HECHO", "ANTECEDENTES"]),
   ("FUNDAMENTOS DE DERECHO", ["FUNDAMENTOS DE DERECHO", "FUNDAMENTOS JURIDICOS"]),
   ("FALLO", ["FALLO", "RESUELVO"]),
   ("PETICIONES", ["SUPLICO", "SOLICITO", "PETICION"])]

def listMinNat : List Nat → Option Nat
  | [] => none
  | x :: xs => some (xs.foldl Nat.min x)

def sectionMarkers (upper : String) : List (Nat × String) :=
  SECTION_KEYWORDS.filterMap (fun p =>
    match listMinNat (p.2.filterMap (fun kw => firstIdx kw upper)) with
    | some i => some (i, p.1)
    | none => none)

/-- Stable insertion by offset (Python `list.sort(key=item[0])`). -/
def insertMarker (x : Nat × String) : List (Nat × String) → List (Nat × String)
  | [] => [x]
  | y :: ys => if y.1 ≤ x.1 then y :: insertMarker x ys else x :: y :: ys

def sortMarkers (l : List (Nat × String)) : List (Nat × String) :=
  l.foldl (fun acc x => insertMarker x acc) []

def sectionsFromMarkers (text : String) : List (Nat × String) → List DocumentSection
  | [] => []
  | (start, name) :: rest =>
    let endIdx := match rest with
      | (s2, _) :: _ => s2
      | [] => text.data.length
    let snippet := pyStrip (String.mk ((text.data.drop start).take (endIdx - start)))
    { name := name,
      content := if snippet = "" then none else some snippet,
      confidence := some (if snippet = "" then (6 : ℚ)/10 else (8 : ℚ)/10) } ::
      sectionsFromMarkers text rest

def segment_sections (text : String) : List DocumentSection :=
  if text = "" then []
  else
    let upper := pyUpper text
    let markers := sortMarkers (sectionMarkers upper)
    match markers with
    | [] =>
      [{ name := "CUERPO",
         content := (let c := pyStrip text; if c = "" then none else some c),
         confidence := some ((3 : ℚ)/10) }]
    | _ => sectionsFromMarkers text markers

/-- Alternatives of `(FALLO|FALL[ÓO]|RESUELVO|RESUELVE|FALLA)`, expanded
in source order. -/
def FALLO_KEYWORDS : List String :=
  ["FALLO", "FALLÓ", "FALLO", "RESUELVO", "RESUELVE", "FALLA"]

/-- Body `\s*(KEYWORDS)[:\s\n]` of the fallo anchor, starting at `pos`;
returns the match end index. -/
def matchFalloBody (pos : Nat) (s : List Char) : Option Nat :=
  let sp := s.span isSpaceCh
  firstSome FALLO_KEYWORDS (fun kw =>
    match litMatchCI kw.data sp.2 with
    | some m =>
      match m.2 with
      | c :: _ =>
        if c = ':' || isSpaceCh c then
          some (pos + sp.1.length + kw.data.length + 1)
        else none
      | [] => none
    | none => none)

/-- `re.search(r"(^|\n)\s*(FALLO|FALL[ÓO]|RESUELVO|RESUELVE|FALLA)[:\s\n]",
text, re.IGNORECASE)`, returning `(m.start, m.end)`. -/
def searchFalloStartAux : Nat → List Char → Option (Nat × Nat)
  | idx, [] => none
  | idx, s@(c :: rest) =>
    match (if idx = 0 then (matchFalloBody 0 s).map (fun e => (0, e)) else none) with
    | some r => some r
    | none =>
      match (if c = '\n' then (matchFalloBody (idx + 1) rest).map (fun e => (idx, e))
             else none) with
      | some r => some r
      | none => searchFalloStartAux (idx + 1) rest

/-- Class `[A-ZÁÉÍÓÚÑ\s]` of the end-of-fallo header pattern. -/
def isEndClassCh (c : Char) : Bool :=
  ('A' ≤ c ∧ c ≤ 'Z') || (['Á', 'É', 'Í', 'Ó', 'Ú', 'Ñ'].contains c) || isSpaceCh c

/-- `\s*[A-ZÁÉÍÓÚÑ\s]{3,40}\s*\n` starting right after a `'\n'`
(existence, with the regex decomposition made explicit). -/
def matchEndPattern (cs : List Char) : Bool :=
  (List.range (cs.length + 1)).any (fun a =>
    (cs.take a).all isSpaceCh &&
      ((List.range 38).any (fun k0 =>
        let k := k0 + 3
        let afterA := cs.drop a
        decide (k ≤ afterA.length) &&
          (afterA.take k).all isEndClassCh &&
          ((List.range (afterA.length - k + 1)).any (fun b =>
            let afterK := afterA.drop k
            (afterK.take b).all isSpaceCh &&
              (match afterK.drop b with
               | '\n' :: _ => true
               | _ => false))))))

/-- `end_pattern.search(text, pos)`: index of the first matching `'\n'`. -/
def searchEndFromAux : Nat → List Char → Option Nat
  | idx, [] => none
  | idx, c :: rest =>
    if c = '\n' && matchEndPattern rest then some idx
    else searchEndFromAux (idx + 1) rest

def searchEndFrom (cs : List Char) (pos : Nat) : Option Nat :=
  searchEndFromAux pos (cs.drop pos)

def extract_fallo_literal (text : String) : Option String :=
  if text = "" then none
  else
    match searchFalloStartAux 0 text.data with
    | none => none
    | some se =>
      let endIdx :=
        match searchEndFrom text.data se.2 with
        | some e => e
        | none => text.data.length
      let f := pyStrip (String.mk ((text.data.drop se.1).take (endIdx - se.1)))
      if f = "" then none else some f

namespace NormalizationService

def clean_text (raw : String) : String :=
  normalize_whitespace (remove_repeated_headers (sanitize_characters raw))

/-- `NormalizationService.normalize`, with the mutation of the input's
metadata made explicit: the result pairs the new `SegmentedDocument` with
the post-state of the `IngestResult` that was passed in (the service
writes the extracted fallo into `ingest_result.metadata.extra`).  The
`setattr(segmented, "falloLiteral", fallo)` is modelled by the dynamic
`falloLiteral` field; `metadata` of `IngestResult` is required by the
schema, so the `metadata is None` branch is dead. -/
def normalize (ing : IngestResult) : Except String (SegmentedDocument × IngestResult) :=
  if ing.rawText = "" then Except.error "Ingest result is empty."
  else
    let cleaned := clean_text ing.rawText
    let sections := segment_sections cleaned
    let fallo := extract_fallo_literal cleaned
    let meta2 :=
      match fallo with
      | some f =>
        if f = "" then ing.metadata
        else { ing.metadata with extra := dictSet ing.metadata.extra "falloLiteral" f }
      | none => ing.metadata
    let ing2 : IngestResult := { ing with metadata := meta2 }
    Except.ok
      ({ rawText := ing.rawText, normalizedText := cleaned, sections := sections,
         metadata := some meta2, falloLiteral := fallo }, ing2)

end NormalizationService

/-! ## services/classification_service.py -/

def TYPE_KEYWORDS : List (String × List String) :=
  [("RESOLUCION_JURIDICA", ["SENTENCIA", "FALLO", "AUTO", "DECRETO", "RESUELVO"]),
   ("ESCRITO_PROCESAL", ["DEMANDA", "ESCRITO", "RECURSO", "SUPLICO", "SOLICITO"])]

def SUBTYPE_KEYWORDS : List (String × List String) :=
  [("SENTENCIA", ["SENTENCIA"]), ("AUTO", ["AUTO"]), ("PROVIDENCIA", ["PROVIDENCIA"]),
   ("DECRETO", ["DECRETO"]), ("DEMANDA", ["DEMANDA"]), ("RECURSO", ["RECURSO", "RECURR"])]

/-- Python `round(x, 2)` (banker's rounding; modelled exactly on ℚ —
binary-float artifacts at exact `.005` ties are not reproduced, and no
value considered here sits on such a tie). -/
def pyRound2 (x : ℚ) : ℚ :=
  let s := x * 100
  let n : ℤ := ⌊s⌋
  let f : ℚ := s - n
  let r : ℤ :=
    if f < 1/2 then n
    else if 1/2 < f then n + 1
    else if n % 2 = 0 then n else n + 1
  (r : ℚ) / 100

namespace ClassificationService

/-- Header text: first 20 `splitlines`, stripped, non-blank, uppercased,
joined by single spaces. -/
def headerTextOf (normalizedText : String) : String :=
  joinSep " "
    (((pySplitlines normalizedText).take 20).filterMap (fun ln =>
      let s := pyStrip ln
      if s = "" then none else some (pyUpper s)))

/-- Header override patterns, in source order (case-sensitive searches). -/
def forcedSubtypeOf (headerText : String) : Option String :=
  if searchWordCS "SENTENCIA" headerText then some "SENTENCIA"
  else if searchWordCS "AUTO" headerText then some "AUTO"
  else if searchWordCS "DECRETO" headerText then some "DECRETO"
  else if searchWordCS "PROVIDENCIA" headerText then some "PROVIDENCIA"
  else none

/-- Score and match list for one keyword family: each keyword present in
the text (substring) or equal to a section name adds `0.2`. -/
def typeScore (text : String) (sections : List String) (kws : List String)
    (docType : String) : ℚ × List String :=
  kws.foldl
    (fun acc kw =>
      if containsSub kw text || sections.contains kw then
        (acc.1 + (2 : ℚ)/10, acc.2 ++ [docType ++ ":" ++ kw])
      else acc)
    (0, [])

/-- Subtype scoring: a keyword in the header text adds `1.0` (tagged
`(header)`), else a keyword in the body adds `0.25`. -/
def subtypeScore (text headerText : String) (kws : List String)
    (subtype : String) : ℚ × List String :=
  kws.foldl
    (fun acc kw =>
      if containsSub kw headerText then
        (acc.1 + 1, acc.2 ++ [subtype ++ ":" ++ kw ++ "(header)"])
      else if containsSub kw text then
        (acc.1 + (25 : ℚ)/100, acc.2 ++ [subtype ++ ":" ++ kw])
      else acc)
    (0, [])

/-- `max(scores, key=scores.get)`: first key (in insertion order) with
the maximal score. -/
def bestKey : List (String × ℚ) → String × ℚ
  | [] => ("", 0)
  | x :: xs => xs.foldl (fun b y => if y.2 > b.2 then y else b) x

def rule_based_classification (doc : SegmentedDocument) : ClassificationResult :=
  let text := pyUpper doc.normalizedText
  let sections := doc.sections.map (fun s => pyUpper s.name)
  let headerText := headerTextOf doc.normalizedText
  let forced := forcedSubtypeOf headerText
  let typeScored := TYPE_KEYWORDS.map (fun p => (p.1, typeScore text sections p.2 p.1))
  let typeMatches := (typeScored.map (fun p => p.2.2)).flatten
  let bestType0 := bestKey (typeScored.map (fun p => (p.1, p.2.1)))
  let bestTypeScore := min bestType0.2 1
  let subScored := SUBTYPE_KEYWORDS.map (fun p => (p.1, subtypeScore text headerText p.2 p.1))
  let subtypeMatches0 := (subScored.map (fun p => p.2.2)).flatten
  let bestSub0 := bestKey (subScored.map (fun p => (p.1, p.2.1)))
  let bestSubScore0 := min bestSub0.2 1
  let bestSubName : String :=
    match forced with
    | some f => f
    | none => bestSub0.1
  let bestSubScore : ℚ :=
    match forced with
    | some _ => 1
    | none => bestSubScore0
  let subtypeMatches : List String :=
    match forced with
    | some f => (f ++ ":header_override") :: subtypeMatches0
    | none => subtypeMatches0
  let bestType := if bestTypeScore = 0 then "OTRO" else bestType0.1
  let bestSubtype := if bestSubScore = 0 then "DESCONOCIDO" else bestSubName
  let confidence := min 1 (max bestTypeScore ((2 : ℚ)/10) + bestSubScore * (1/2))
  let explanations :=
    (if typeMatches ≠ [] then ["Reglas tipo: " ++ joinSep ", " (typeMatches.take 5)] else []) ++
    (if subtypeMatches ≠ [] then ["Reglas subtipo: " ++ joinSep ", " (subtypeMatches.take 5)] else [])
  { docType := bestType, docSubtype := bestSubtype,
    confidence := pyRound2 confidence, source := "RULES_ONLY",
    explanations := if explanations = [] then ["No se detectaron patrones fuertes."] else explanations }

/-- `ClassificationService.classify`; `oracle` is the result of
`_llm_classification` (already parsed/clamped; `none` on any failure). -/
def classify (ruleThreshold forceLlmThreshold : ℚ)
    (oracle : Option ClassificationResult) (doc : SegmentedDocument) :
    ClassificationResult :=
  let rule := rule_based_classification doc
  if ruleThreshold ≤ rule.confidence then rule
  else
    let llm := if rule.confidence < forceLlmThreshold then oracle else none
    match llm with
    | none => rule
    | some l =>
      if rule.confidence < l.confidence then
        { docType := l.docType, docSubtype := l.docSubtype,
          confidence := l.confidence, source := "HYBRID",
          explanations := rule.explanations ++ l.explanations }
      else rule

/-- Number of calls made to the external capability by `classify`
(`_llm_classification` invokes the client exactly when it is entered). -/
def external_calls (ruleThreshold forceLlmThreshold : ℚ)
    (doc : SegmentedDocument) : Nat :=
  let rule := rule_based_classification doc
  if ruleThreshold ≤ rule.confidence then 0
  else if rule.confidence < forceLlmThreshold then 1
  else 0

end ClassificationService

/-! ## services/simplification_service.py

`_call_llm` is abstracted by an `LLMPayload` oracle argument (the parsed
JSON; `{}`/`emptyPayload` on any exception).  `_collect_metadata` and
`_collect_parties` only feed the capability prompt, which the oracle
abstracts; the prompt text itself is represented by `llm_input_text`. -/

namespace SimplificationService

def MAX_CHARS : Nat := 12000
def HARD_LIMIT : Nat := 16000

def select_strategy (docType docSubtype : String) : String :=
  let dtU := pyUpper (pyOrS docType "")
  let dstU := pyUpper (pyOrS docSubtype "")
  if dtU = "RESOLUCION_JURIDICA" then
    if dstU == "SENTENCIA" || dstU == "AUTO" || dstU == "DECRETO" then "resolution"
    else "resolution_generic"
  else if dtU = "ESCRITO_PROCESAL" then
    if dstU == "DEMANDA" || dstU == "RECURSO" then "procedural_filing"
    else "procedural_generic"
  else "generic"

/-- `getattr(document, "falloLiteral", None) or getattr(document,
"fallbackFallo", None)`; no code path ever sets `fallbackFallo`, so the
second operand is always `None`. -/
def docFallo (document : SegmentedDocument) : Option String :=
  match document.falloLiteral with
  | some f => if f = "" then none else some f
  | none => none

/-- The text handed to the rewriting capability by `_call_llm`:
`document.normalizedText or document.rawText or ""`, hard-truncated at
`HARD_LIMIT` characters. -/
def llm_input_text (document : SegmentedDocument) : String :=
  let t := pyOrS document.normalizedText (pyOrS document.rawText "")
  if HARD_LIMIT < t.data.length then String.mk (t.data.take HARD_LIMIT) else t

def derive_decision_from_fallo (fl : Option String) : String × String :=
  match fl with
  | none => ("desconocido", "desconocido")
  | some fallo =>
    if fallo = "" then ("desconocido", "desconocido")
    else
      let upper := pyUpper fallo
      let who :=
        if containsSub "SE ESTIMA PARCIAL" upper || containsSub "ESTIMA PARCIAL" upper then
          "parcial"
        else if containsSub "SE ESTIMA" upper || containsSub "ESTIMA LA DEMANDA" upper then
          "actora"
        else if containsSub "SE DESESTIMA" upper || containsSub "DESESTIMA LA DEMANDA" upper
            || containsSub "RECHAZA COMPLETAMENTE" upper then
          "demandado"
        else "desconocido"
      let costs :=
        if containsSub "COSTAS A LA PARTE ACTORA" upper || containsSub "COSTAS A LA ACTORA" upper then
          "actora"
        else if containsSub "COSTAS A LA PARTE DEMANDADA" upper
            || containsSub "COSTAS A LA DEMANDADA" upper then
          "demandado"
        else if containsSub "SIN ESPECIAL PRONUNCIAMIENTO" upper then "sin_costas"
        else "desconocido"
      (pyLower who, pyLower costs)

def normalize_payload (data : LLMPayload) (fl : Option String) : StructuredPayload :=
  let header := data.headerSummary.getD emptyRawHeader
  let parties := data.partiesSummary.getD emptyRawParties
  let procedural := pyOrOpt data.proceduralContext ""
  let decision := data.decisionFallo.getD ⟨none⟩
  let wc := derive_decision_from_fallo fl
  { headerSummary :=
      ⟨header.court.getD "", header.date.getD "", header.caseNumber.getD "",
       header.resolutionNumber.getD "", header.procedureType.getD "",
       header.judge.getD ""⟩,
    partiesSummary :=
      ⟨parties.plaintiff.getD "", parties.plaintiffRepresentatives.getD "",
       parties.defendant.getD "", parties.defendantRepresentatives.getD ""⟩,
    proceduralContext := procedural,
    decisionFallo :=
      ⟨wc.1, wc.2, pyOrOpt decision.plainText (pyOrOpt fl ""), pyOrOpt fl ""⟩ }

def render_simplified_text (data : StructuredPayload) (docType docSubtype : String) :
    String :=
  let h := data.headerSummary
  let p := data.partiesSummary
  let d := data.decisionFallo
  let lines : List String :=
    ["[1] Datos del caso",
     "- Fecha: " ++ h.date,
     "- Juzgado: " ++ h.court,
     "- Jueza/Juez: " ++ h.judge,
     "- Numero de caso: " ++ h.caseNumber,
     "- Numero de resolucion: " ++ h.resolutionNumber,
     "- Tipo de documento: " ++ docType ++ " - " ++ docSubtype,
     "",
     "[2] Partes involucradas",
     "- Demandante: " ++ p.plaintiff] ++
    (if p.plaintiffRepresentatives ≠ "" then
       ["  Representantes: " ++ p.plaintiffRepresentatives] else []) ++
    ["- Demandado: " ++ p.defendant] ++
    (if p.defendantRepresentatives ≠ "" then
       ["  Representantes: " ++ p.defendantRepresentatives] else []) ++
    ["",
     "[3] Lo que paso antes (contexto procesal)",
     pyOrS data.proceduralContext "",
     "",
     "[4] Resultado del caso (segun el FALLO)",
     "- Quien gana: " ++ d.whoWins,
     "- Costas: " ++ d.costs,
     "- Resumen breve: " ++ d.plainText] ++
    (if d.falloLiteral ≠ "" then ["- Fallo literal:", d.falloLiteral] else []) ++
    [""]
  pyStrip (joinSep "\n" lines)

def PRIORITY_SECTIONS : List String :=
  ["ENCABEZADO", "ANTECEDENTES DE HECHO", "FUNDAMENTOS DE DERECHO",
   "FUNDAMENTOS JURIDICOS", "FALLO", "PETICIONES"]

def sectionByName : List (String × DocumentSection) → String → Option DocumentSection
  | [], _ => none
  | (k, v) :: rest, key => if k = key then some v else sectionByName rest key

/-- `dict.setdefault` accumulation: first section per uppercased name. -/
def nameToSections (sections : List DocumentSection) : List (String × DocumentSection) :=
  sections.foldl
    (fun m sec =>
      let k := pyUpper sec.name
      if (m.any (fun e => decide (e.1 = k))) then m else m ++ [(k, sec)])
    []

def selPriority (m : List (String × DocumentSection)) :
    List String → List DocumentSection → List DocumentSection
  | [], sel => sel
  | k :: ks, sel =>
    let sel2 :=
      match sectionByName m k with
      | some sec => if sel.any (fun t => decide (t = sec)) then sel else sel ++ [sec]
      | none => sel
    if sel2.length ≥ 4 then sel2 else selPriority m ks sel2

def selFill : List DocumentSection → List DocumentSection → List DocumentSection
  | [], sel => sel
  | sec :: rest, sel =>
    let sel2 := if sel.any (fun t => decide (t = sec)) then sel else sel ++ [sec]
    if sel2.length ≥ 3 then sel2 else selFill rest sel2

def important_sections (document : SegmentedDocument) : List DocumentSection :=
  match document.sections with
  | [] => []
  | sections =>
    let m := nameToSections sections
    let selected := selPriority m PRIORITY_SECTIONS []
    if selected.length < 3 then selFill sections selected else selected

/-- `SimplificationService.simplify`; `payload` is the parsed capability
output and `provider` is `client.provider_name`. -/
def simplify (document : SegmentedDocument) (classification : ClassificationResult)
    (payload : LLMPayload) (provider : String) : SimplificationResult :=
  let doc_type := pyOrS classification.docType "OTRO"
  let doc_subtype := pyOrS classification.docSubtype "DESCONOCIDO"
  let strategy := select_strategy doc_type doc_subtype
  let fallo := docFallo document
  let structured := normalize_payload payload fallo
  let simplified := render_simplified_text structured doc_type doc_subtype
  { simplifiedText := simplified, docType := doc_type, docSubtype := doc_subtype,
    headerSummary := structured.headerSummary,
    partiesSummary := structured.partiesSummary,
    proceduralContext := structured.proceduralContext,
    decisionFallo := some structured.decisionFallo,
    importantSections := important_sections document,
    strategy := strategy, provider := provider,
    truncated := false, warnings := [] }

end SimplificationService

/-! ## services/safety_check_service.py -/

namespace SafetyCheckService

/-- `re.search(r"\b(SE\s+DESESTIMA|DESESTIMA|NO\s+HA\s+LUGAR)\b", ...)` /
`\b(SE\s+ESTIMA|ESTIMAR|SE\s+ACUERDA\s+ESTIMAR|FALLA\s+A\s+FAVOR)\b`. -/
def detect_winner_from_text (t : String) : String :=
  if searchWordAltsCI [["SE", "DESESTIMA"], ["DESESTIMA"], ["NO", "HA", "LUGAR"]] t then
    "parte demandada"
  else if searchWordAltsCI
      [["SE", "ESTIMA"], ["ESTIMAR"], ["SE", "ACUERDA", "ESTIMAR"],
       ["FALLA", "A", "FAVOR"]] t then
    "parte demandante"
  else "desconocido"

def detect_costs_from_text (t : String) : String :=
  if searchWordAltsCI
      [["IMPONER", "EN", "COSTAS"], ["CONDENA", "EN", "COSTAS"],
       ["CONDENANDO", "EN", "COSTAS"]] t
     || searchTwoWordsLine "COSTAS" "IMPONEN" t then
    "completo"
  else if searchWordAltsCI [["SIN", "COSTAS"], ["NO", "CONDENAR", "EN", "COSTAS"]] t then
    "ninguno"
  else if searchTwoWordsLine "COSTAS" "PARCIAL" t
      || searchTwoWordsLine "PARCIALMENTE" "COSTAS" t then
    "parcial"
  else "desconocido"

/-- `norm_map.get(w, w)`. -/
def normWinner (w : String) : String :=
  if w = "parte demandante" ∨ w = "demandante" ∨ w = "actora" then "parte demandante"
  else if w = "parte demandada" ∨ w = "demandada" ∨ w = "demandado" then "parte demandada"
  else if w = "parcial" then "parcial"
  else w

/-- The `fallo_literal` read by `_rule_based_flags` from the original
document's metadata (only when metadata is present and `extra` is a
non-empty dict). -/
def safety_fallo_literal (original : SegmentedDocument) : Option String :=
  match original.metadata with
  | some m => if m.extra ≠ [] then dictGet m.extra "falloLiteral" else none
  | none => none

def rule_based_flags (original : SegmentedDocument)
    (simplification : SimplificationResult) : List String :=
  let falloFl := safety_fallo_literal original
  let f1 := if falloFl.getD "" = "" then ["MISSING_FALLO_LITERAL"] else []
  let origTextFull := pyUpper (pyOrS original.normalizedText "")
  let simpText := pyUpper (pyOrS simplification.simplifiedText "")
  let origTextFallo := pyUpper (falloFl.getD "")
  let origWinner := detect_winner_from_text origTextFallo
  let origCosts := detect_costs_from_text origTextFallo
  let f2 :=
    match simplification.decisionFallo with
    | none => []
    | some decision =>
      let simpWinner := pyOrS (pyLower (pyStrip decision.whoWins)) "desconocido"
      let p1 :=
        if simpWinner ≠ "desconocido" ∧ origWinner ≠ "desconocido"
            ∧ normWinner simpWinner ≠ normWinner origWinner then
          ["FALLO_POLARITY_MISMATCH"]
        else []
      let simpCosts := pyOrS (pyLower (pyStrip decision.costs)) "desconocido"
      let p2 :=
        if simpCosts ≠ "desconocido" ∧ origCosts ≠ "desconocido"
            ∧ simpCosts ≠ origCosts then
          ["FALLO_COSTS_MISMATCH"]
        else []
      p1 ++ p2
  let origAmounts := (extract_amounts origTextFull).dedup
  let simpAmounts := extract_amounts simpText
  let f3 := (origAmounts.filter (fun a => !(simpAmounts.any (fun b => decide (b = a))))).map
    (fun a => "MISSING_AMOUNT:" ++ a)
  let origDates := (extract_dates origTextFull).dedup
  let simpDates := extract_dates simpText
  let f4 := (origDates.filter (fun a => !(simpDates.any (fun b => decide (b = a))))).map
    (fun a => "MISSING_DATE:" ++ a)
  let origDeadlines := (extract_deadlines origTextFull).dedup
  let simpDeadlines := extract_deadlines simpText
  let f5 := (origDeadlines.filter (fun a => !(simpDeadlines.any (fun b => decide (b = a))))).map
    (fun a => "WARNING_MISSING_DEADLINE:" ++ a)
  f1 ++ f2 ++ f3 ++ f4 ++ f5

/-- The victory-assertion phrases checked against the legal guide. -/
def guide_flags (simplification : SimplificationResult) (legalGuide : LegalGuide) :
    List String :=
  let who :=
    match simplification.decisionFallo with
    | some d => d.whoWins
    | none => ""
  if pyLower who = "desconocido" then
    let textAll := pyLower (pyOrS legalGuide.meaningForYou "" ++ " " ++
      pyOrS legalGuide.whatToDoNow "")
    if containsSub "has ganado" textAll || containsSub "has perdido" textAll
        || containsSub "ganado" textAll || containsSub "te devolver" textAll
        || containsSub "el banco debe" textAll then
      ["GUIDE_ASSERTS_VICTORY_WITHOUT_FALLO"]
    else []
  else []

/-- `SafetyCheckService.evaluate`; `oracle` is the result of
`_call_verifier` (`none` models the `LLMClientError` branch). -/
def evaluate (original : SegmentedDocument) (simplification : SimplificationResult)
    (legalGuide : LegalGuide) (oracle : Option VerifierOutput) : SafetyCheckResult :=
  let ruleFlags := rule_based_flags original simplification ++
    guide_flags simplification legalGuide
  let issues := ruleFlags.map (fun flag => SafetyIssue.mk flag flag "warning") ++
    (match oracle with
     | some o => o.warnings.map (fun w => SafetyIssue.mk "LLM_WARNING" w "warning")
     | none => [])
  let isSafe0 := issues.isEmpty
  let isSafe :=
    match oracle with
    | some o => isSafe0 && o.is_safe
    | none => isSafe0
  let llmVerdict :=
    match oracle with
    | some o => some (pyOrOpt o.verdict o.rawResponse)
    | none => none
  { isSafe := isSafe, issues := issues, ruleBasedFlags := ruleFlags,
    llmVerdict := llmVerdict }

end SafetyCheckService

/-! ## Spec-side definition (for the refinement comparison of C2) -/

/-- Modelled from the spec: "the summary must state explicitly that no
ruling clause was located" / "the rendered summary contains an explicit
'ruling not located' statement".  A statement to that effect, in any
phrasing a Spanish or English implementation would plausibly use, is
detected case-insensitively. -/
def spec_ruling_not_located (s : String) : Bool :=
  let u := pyUpper s
  containsSub "NO SE HA LOCALIZADO" u || containsSub "NO SE LOCALIZ" u ||
  containsSub "NO SE ENCONTR" u || containsSub "NO SE HA ENCONTRADO" u ||
  containsSub "NO CONSTA" u || containsSub "NO SE IDENTIFIC" u ||
  containsSub "SIN FALLO" u || containsSub "FALLO NO " u ||
  containsSub "NO HAY FALLO" u || containsSub "NOT LOCATED" u ||
  containsSub "NO RULING" u

/-! ## Concrete fixtures used by witnesses and counterexamples -/

def sHeader0 : HeaderSummary := ⟨"", "", "", "", "", ""⟩
def sParties0 : PartiesSummary := ⟨"", "", "", ""⟩
def g0 : LegalGuide := ⟨"", "", "", "", "fake"⟩

/-- A classification fixture (values irrelevant to the properties). -/
def cls0 : ClassificationResult := ⟨"OTRO", "DESCONOCIDO", (2 : ℚ)/10, "RULES_ONLY", []⟩

/-- Document whose operative-clause extraction yielded nothing (C2). -/
def c2doc : SegmentedDocument := ⟨"texto", "texto", [], none, none⟩

/-- A capability payload that tries to assert an outcome in prose. -/
def c2payload : LLMPayload := ⟨none, none, some "contexto", some ⟨some "Gana la actora"⟩⟩

/-- Original document of the C3 scenario. -/
def c3orig : SegmentedDocument :=
  ⟨"Se impone multa de $5.000 COP. Fecha límite 10/05/2024.",
   "Se impone multa de $5.000 COP. Fecha límite 10/05/2024.", [], none, none⟩

/-- A rewrite omitting the amount and the date. -/
def c3simp : SimplificationResult :=
  ⟨"Resumen sin datos", "RESOLUCION_JURIDICA", "SENTENCIA", sHeader0, sParties0, "",
   none, [], "resolution", "fake", false, []⟩

/-- Original document containing only a deadline literal (C3). -/
def c3origB : SegmentedDocument :=
  ⟨"Puede recurrir en el plazo de 20 dias.",
   "Puede recurrir en el plazo de 20 dias.", [], none, none⟩

/-- Header says SENTENCIA while the body is full of filing keywords (C4). -/
def c4doc : SegmentedDocument :=
  ⟨"SENTENCIA\nDEMANDA ESCRITO RECURSO SUPLICO SOLICITO",
   "SENTENCIA\nDEMANDA ESCRITO RECURSO SUPLICO SOLICITO", [], none, none⟩

/-- Document whose normalized text exceeds the hard character limit (C5). -/
def c5doc : SegmentedDocument :=
  ⟨"", String.mk (List.replicate 16001 'A'), [], none, some "FALLO: X"⟩

/-- The scenario text of C8 (header `SENTENCIA`, dismissal, costs). -/
def c8doc : SegmentedDocument :=
  ⟨"SENTENCIA\nFALLO\nSE DESESTIMA LA DEMANDA. COSTAS A LA PARTE ACTORA.",
   "SENTENCIA\nFALLO\nSE DESESTIMA LA DEMANDA. COSTAS A LA PARTE ACTORA.", [], none, none⟩

def c8fallo : String := "FALLO\nSE DESESTIMA LA DEMANDA. COSTAS A LA PARTE ACTORA."

/-- An adversarial external classification used to show independence. -/
def llmOracle0 : ClassificationResult := ⟨"OTRO", "DESCONOCIDO", 1, "LLM", ["llm"]⟩

/-- Ingest fixture for C9 (no `falloLiteral` in the metadata yet). -/
def c9meta : DocumentMetadata := ⟨"text", none, none, none, []⟩
def c9ing : IngestResult := ⟨"FALLO: SE DESESTIMA.", c9meta⟩
def c9meta1 : DocumentMetadata :=
  ⟨"text", none, none, none, [("falloLiteral", "FALLO: SE DESESTIMA.")]⟩
def c9ing1 : IngestResult := ⟨"FALLO: SE DESESTIMA.", c9meta1⟩
def c9seg : SegmentedDocument :=
  ⟨"FALLO: SE DESESTIMA.", "FALLO: SE DESESTIMA.",
   [⟨"FALLO", some "FALLO: SE DESESTIMA.", some ((8 : ℚ)/10)⟩],
   some c9meta1, some "FALLO: SE DESESTIMA."⟩

/-- Post-state of the ingest argument after `normalize` (the mutation). -/
def normPost (i : IngestResult) : Option IngestResult :=
  match NormalizationService.normalize i with
  | Except.ok p => some p.2
  | Except.error _ => none

/-- A verifier oracle output fixture. -/
def verOut0 : VerifierOutput := ⟨true, [], none, "raw"⟩

/-! ## Helper lemmas -/

/- Batteries marks the ℚ arithmetic operations `@[irreducible]`; they are
made semireducible here so that `decide` can evaluate the embedded score
arithmetic on concrete documents. -/
attribute [local semireducible] Rat.add Rat.mul Rat.inv Rat.sub Rat.ofScientific

theorem map_append_nil_isEmpty {α β : Type} (f : α → β) (l : List α) :
    ((l.map f) ++ ([] : List β)).isEmpty = l.isEmpty := by
  cases l <;> simp

/-! ## Claim theorems -/

/-- Claim C1: a clause with a recognizable dismissal verb and no
estimation verb should give winner = respondent ("demandado").  The code
refutes this at the clause "SE DESESTIMA LA DEMANDA.": the rewriter
derives whoWins = "actora" (claimant), because the estimation branch
tests the substring "ESTIMA LA DEMANDA", which occurs inside
"DESESTIMA LA DEMANDA", shadowing the dismissal branch whose own
"DESESTIMA LA DEMANDA" disjunct is dead code.  The verifier's word-level
detector classifies the same clause as "parte demandada", so the code
contradicts itself; a dismissal clause without that substring overlap
("SE DESESTIMA EL RECURSO.") does give "demandado". -/
theorem C1_dismissal_clause_eval :
    SimplificationService.derive_decision_from_fallo (some "SE DESESTIMA LA DEMANDA.") =
      ("actora", "desconocido") ∧
    SafetyCheckService.detect_winner_from_text (pyUpper "SE DESESTIMA LA DEMANDA.") =
      "parte demandada" ∧
    SimplificationService.derive_decision_from_fallo (some "SE DESESTIMA EL RECURSO.") =
      ("demandado", "desconocido") := by
  decide

/-- Claim C2 (amended): when operative-clause extraction yielded nothing,
the rewriter's decision is forced to winner = "desconocido",
costs = "desconocido", literal clause = "" for every capability payload
(the capability cannot assert an outcome); the rendered summary, however,
contains no explicit "ruling not located" statement (see the
counterexample), it merely reports "Quien gana: desconocido". -/
theorem C2_no_fallo_decision_unknown :
    ∀ (document : SegmentedDocument) (classification : ClassificationResult)
      (payload : LLMPayload) (provider : String),
      SimplificationService.docFallo document = none →
      (SimplificationService.simplify document classification payload provider).decisionFallo =
        some { whoWins := "desconocido", costs := "desconocido",
               plainText := pyOrOpt (payload.decisionFallo.getD ⟨none⟩).plainText "",
               falloLiteral := "" } := by
  intro document classification payload provider h
  simp [SimplificationService.simplify, SimplificationService.normalize_payload,
    SimplificationService.derive_decision_from_fallo, h, pyOrOpt]

/-- Witness for C2: a concrete document with no extracted clause and a
payload whose prose asserts a claimant victory still yields the forced
unknown decision. -/
theorem C2_no_fallo_decision_unknown_witness :
    (SimplificationService.simplify c2doc cls0 c2payload "fake").decisionFallo =
      some { whoWins := "desconocido", costs := "desconocido",
             plainText := "Gana la actora", falloLiteral := "" } :=
  C2_no_fallo_decision_unknown c2doc cls0 c2payload "fake" rfl

set_option maxRecDepth 10000 in
/-- Counterexample for C2 as stated: at a concrete clause-less document
the rendered summary contains no "ruling not located" statement
(`spec_ruling_not_located` is the spec-side detector). -/
theorem C2_missing_ruling_statement_cx :
    SimplificationService.docFallo c2doc = none ∧
    spec_ruling_not_located
      (SimplificationService.simplify c2doc cls0 emptyPayload "fake").simplifiedText = false := by
  decide

theorem mem_missing_map {pfx : String} {l1 l2 : List String} {a : String}
    (ha : a ∈ l1) (hna : a ∉ l2) :
    (pfx ++ a) ∈
      (l1.dedup.filter (fun x => !(l2.any (fun b => decide (b = x))))).map
        (fun x => pfx ++ x) := by
  refine List.mem_map.2 ⟨a, List.mem_filter.2 ⟨List.mem_dedup.2 ha, ?_⟩, rfl⟩
  have h : (l2.any (fun b => decide (b = a))) = false := by
    rw [List.any_eq_false]
    intro b hb
    simp only [decide_eq_true_eq]
    intro hba
    exact hna (hba ▸ hb)
  simp [h]

/-- Claim C3 (amended): every amount literal extracted from the
(uppercased) original and absent from the extraction of the rewrite
yields a `MISSING_AMOUNT:<literal>` rule flag, every such date literal a
`MISSING_DATE:<literal>` flag; a missing deadline literal, however,
yields `WARNING_MISSING_DEADLINE:<literal>` (not a `MISSING_*`-prefixed
flag, see the counterexample).  In the concrete scenario the report's
issues include `MISSING_AMOUNT:$5.000 COP` and `MISSING_DATE:10/05/2024`
and `isSafe` is false for every guide and verifier behaviour. -/
theorem C3_entity_preservation :
    (∀ (orig : SegmentedDocument) (s : SimplificationResult) (a : String),
      a ∈ extract_amounts (pyUpper (pyOrS orig.normalizedText "")) →
      a ∉ extract_amounts (pyUpper (pyOrS s.simplifiedText "")) →
      ("MISSING_AMOUNT:" ++ a) ∈ SafetyCheckService.rule_based_flags orig s) ∧
    (∀ (orig : SegmentedDocument) (s : SimplificationResult) (a : String),
      a ∈ extract_dates (pyUpper (pyOrS orig.normalizedText "")) →
      a ∉ extract_dates (pyUpper (pyOrS s.simplifiedText "")) →
      ("MISSING_DATE:" ++ a) ∈ SafetyCheckService.rule_based_flags orig s) ∧
    (∀ (orig : SegmentedDocument) (s : SimplificationResult) (a : String),
      a ∈ extract_deadlines (pyUpper (pyOrS orig.normalizedText "")) →
      a ∉ extract_deadlines (pyUpper (pyOrS s.simplifiedText "")) →
      ("WARNING_MISSING_DEADLINE:" ++ a) ∈ SafetyCheckService.rule_based_flags orig s) ∧
    (∀ (g : LegalGuide) (oracle : Option VerifierOutput),
      "MISSING_AMOUNT:$5.000 COP" ∈
        (SafetyCheckService.evaluate c3orig c3simp g oracle).issues.map SafetyIssue.code ∧
      "MISSING_DATE:10/05/2024" ∈
        (SafetyCheckService.evaluate c3orig c3simp g oracle).issues.map SafetyIssue.code ∧
      (SafetyCheckService.evaluate c3orig c3simp g oracle).isSafe = false) := by
  refine ⟨?_, ?_, ?_, ?_⟩
  · intro orig s a ha hna
    simp only [SafetyCheckService.rule_based_flags, List.mem_append]
    exact Or.inl (Or.inl (Or.inr (mem_missing_map ha hna)))
  · intro orig s a ha hna
    simp only [SafetyCheckService.rule_based_flags, List.mem_append]
    exact Or.inl (Or.inr (mem_missing_map ha hna))
  · intro orig s a ha hna
    simp only [SafetyCheckService.rule_based_flags, List.mem_append]
    exact Or.inr (mem_missing_map ha hna)
  · intro g oracle
    have hfl : SafetyCheckService.rule_based_flags c3orig c3simp =
        ["MISSING_FALLO_LITERAL", "MISSING_AMOUNT:$5.000 COP",
         "MISSING_DATE:10/05/2024"] := by decide
    have hg : SafetyCheckService.guide_flags c3simp g = [] := by
      simp only [SafetyCheckService.guide_flags, c3simp]
      exact if_neg (by decide)
    simp only [SafetyCheckService.evaluate, hfl, hg, List.append_nil]
    cases oracle with
    | none => refine ⟨by simp, by simp, rfl⟩
    | some o => refine ⟨by simp, by simp, by simp⟩

set_option maxRecDepth 10000 in
/-- Witness for C3: the three universal parts instantiated at the
scenario documents. -/
theorem C3_entity_preservation_witness :
    ("MISSING_AMOUNT:$5.000 COP" ∈ SafetyCheckService.rule_based_flags c3orig c3simp) ∧
    ("MISSING_DATE:10/05/2024" ∈ SafetyCheckService.rule_based_flags c3orig c3simp) ∧
    ("WARNING_MISSING_DEADLINE:EN EL PLAZO DE 20 DIAS" ∈
      SafetyCheckService.rule_based_flags c3origB c3simp) :=
  ⟨C3_entity_preservation.1 c3orig c3simp "$5.000 COP" (by decide) (by decide),
   C3_entity_preservation.2.1 c3orig c3simp "10/05/2024" (by decide) (by decide),
   C3_entity_preservation.2.2.1 c3origB c3simp "EN EL PLAZO DE 20 DIAS"
     (by decide) (by decide)⟩

set_option maxRecDepth 10000 in
/-- Counterexample for C3 as stated: the deadline literal
"EN EL PLAZO DE 20 DIAS" is extracted from the original, absent from the
rewrite, yet the report carries no `MISSING_*`-prefixed flag holding it
(`isPrefixL` is prefix testing) — only `WARNING_MISSING_DEADLINE:<literal>`. -/
theorem C3_deadline_flag_cx :
    ("EN EL PLAZO DE 20 DIAS" ∈
      extract_deadlines (pyUpper (pyOrS c3origB.normalizedText ""))) ∧
    ("EN EL PLAZO DE 20 DIAS" ∉
      extract_deadlines (pyUpper (pyOrS c3simp.simplifiedText ""))) ∧
    ("WARNING_MISSING_DEADLINE:EN EL PLAZO DE 20 DIAS" ∈
      (SafetyCheckService.evaluate c3origB c3simp g0 none).issues.map SafetyIssue.code) ∧
    (((SafetyCheckService.evaluate c3origB c3simp g0 none).issues.map SafetyIssue.code).all
      (fun c => !(isPrefixL "MISSING_".data c.data &&
        containsSub "EN EL PLAZO DE 20 DIAS" c)) = true) := by
  decide

/-- Claim C4 (amended): `classify` applies no coherence correction: its
result is either the rule estimator's result unchanged, or (on fusion)
carries the external result's docType/docSubtype verbatim with source
"HYBRID"; in particular a resolution subtype such as SENTENCIA can
co-occur with docType = ESCRITO_PROCESAL (see the counterexample). -/
theorem C4_no_coherence_correction :
    ∀ (rt flt : ℚ) (oracle : Option ClassificationResult) (doc : SegmentedDocument),
      ClassificationService.classify rt flt oracle doc =
        ClassificationService.rule_based_classification doc ∨
      ∃ l, oracle = some l ∧
        (ClassificationService.classify rt flt oracle doc).docType = l.docType ∧
        (ClassificationService.classify rt flt oracle doc).docSubtype = l.docSubtype ∧
        (ClassificationService.classify rt flt oracle doc).source = "HYBRID" := by
  intro rt flt oracle doc
  unfold ClassificationService.classify
  by_cases h1 : rt ≤ (ClassificationService.rule_based_classification doc).confidence
  · simp [h1]
  · simp only [if_neg h1]
    by_cases h2 : (ClassificationService.rule_based_classification doc).confidence < flt
    · simp only [if_pos h2]
      cases oracle with
      | none => simp
      | some l =>
        by_cases h3 :
            (ClassificationService.rule_based_classification doc).confidence < l.confidence
        · exact Or.inr ⟨l, rfl, by simp [h3], by simp [h3], by simp [h3]⟩
        · simp [h3]
    · simp [h2]

set_option maxRecDepth 10000 in
/-- Counterexample for C4 as stated: with the configured thresholds
(`classification_rule_threshold = 0.8`, `classification_force_llm_threshold
= 0.5`) the classifier returns docSubtype = SENTENCIA (a resolution
subtype) with docType = ESCRITO_PROCESAL, violating the invariant. -/
theorem C4_incoherent_result_cx :
    (ClassificationService.classify ((8 : ℚ)/10) ((5 : ℚ)/10) none c4doc).docSubtype =
      "SENTENCIA" ∧
    (ClassificationService.classify ((8 : ℚ)/10) ((5 : ℚ)/10) none c4doc).docType =
      "ESCRITO_PROCESAL" := by
  decide

/-- Claim C5: the text passed onward to the capability is hard-truncated
at `HARD_LIMIT` characters and the operative clause, when present, is
always carried into the result (`decisionFallo.falloLiteral`); but the
returned result is never flagged: `truncated` is always `false` and
`warnings` always empty — contradicting the claim and the repository's
own test `test_simplification_truncates_long_text`. -/
theorem C5_truncation_behaviour :
    (∀ (doc : SegmentedDocument) (cls : ClassificationResult) (payload : LLMPayload)
      (provider : String),
      (SimplificationService.simplify doc cls payload provider).truncated = false ∧
      (SimplificationService.simplify doc cls payload provider).warnings = []) ∧
    (∀ doc : SegmentedDocument,
      SimplificationService.HARD_LIMIT < doc.normalizedText.data.length →
      (SimplificationService.llm_input_text doc).data.length =
        SimplificationService.HARD_LIMIT) ∧
    (∀ (doc : SegmentedDocument) (cls : ClassificationResult) (payload : LLMPayload)
      (provider : String) (f : String),
      SimplificationService.docFallo doc = some f →
      (SimplificationService.simplify doc cls payload provider).decisionFallo.map
        DecisionFallo.falloLiteral = some f) := by
  refine ⟨fun doc cls payload provider => ⟨rfl, rfl⟩, ?_, ?_⟩
  · intro doc h
    have hne : doc.normalizedText ≠ "" := by
      intro he
      rw [he] at h
      simp [SimplificationService.HARD_LIMIT] at h
    unfold SimplificationService.llm_input_text pyOrS
    rw [if_neg hne, if_pos h]
    simp only [List.length_take]
    exact Nat.min_eq_left (Nat.le_of_lt h)
  · intro doc cls payload provider f h
    have hf : f ≠ "" := by
      unfold SimplificationService.docFallo at h
      cases hd : doc.falloLiteral with
      | none => rw [hd] at h; simp at h
      | some g =>
        rw [hd] at h
        by_cases hg : g = ""
        · simp [hg] at h
        · simp [hg] at h
          exact h ▸ hg
    simp [SimplificationService.simplify, SimplificationService.normalize_payload,
      h, pyOrOpt, hf]

/-- Witness for C5 at a document whose normalized text has 16001
characters (the repository's own failing test uses 13000): the prompt
text is cut to 16000 characters, the clause survives into the result,
and `truncated` is still reported `false`. -/
theorem C5_truncation_behaviour_witness :
    SimplificationService.HARD_LIMIT < c5doc.normalizedText.data.length ∧
    (SimplificationService.llm_input_text c5doc).data.length =
      SimplificationService.HARD_LIMIT ∧
    (SimplificationService.simplify c5doc cls0 emptyPayload "fake").truncated = false ∧
    (SimplificationService.simplify c5doc cls0 emptyPayload "fake").decisionFallo.map
      DecisionFallo.falloLiteral = some "FALLO: X" := by
  have h : SimplificationService.HARD_LIMIT < c5doc.normalizedText.data.length := by
    show SimplificationService.HARD_LIMIT < (List.replicate 16001 'A').length
    rw [List.length_replicate]
    decide
  exact ⟨h, C5_truncation_behaviour.2.1 c5doc h,
    (C5_truncation_behaviour.1 c5doc cls0 emptyPayload "fake").1,
    C5_truncation_behaviour.2.2 c5doc cls0 emptyPayload "fake" "FALLO: X" rfl⟩

/-- Claim C6: when the rule estimator's confidence reaches the rule
threshold, `classify` returns the rule result (provenance RULES_ONLY),
no external call is made, and the output is identical for any two
behaviours of the external capability. -/
theorem C6_rules_only_short_circuit :
    ∀ (rt flt : ℚ) (o1 o2 : Option ClassificationResult) (doc : SegmentedDocument),
      rt ≤ (ClassificationService.rule_based_classification doc).confidence →
      ClassificationService.classify rt flt o1 doc =
        ClassificationService.rule_based_classification doc ∧
      (ClassificationService.classify rt flt o1 doc).source = "RULES_ONLY" ∧
      ClassificationService.classify rt flt o1 doc =
        ClassificationService.classify rt flt o2 doc ∧
      ClassificationService.external_calls rt flt doc = 0 := by
  intro rt flt o1 o2 doc h
  have h1 : ClassificationService.classify rt flt o1 doc =
      ClassificationService.rule_based_classification doc := by
    unfold ClassificationService.classify
    simp [h]
  have h2 : ClassificationService.classify rt flt o2 doc =
      ClassificationService.rule_based_classification doc := by
    unfold ClassificationService.classify
    simp [h]
  refine ⟨h1, ?_, h1.trans h2.symm, ?_⟩
  · rw [h1]
    rfl
  · unfold ClassificationService.external_calls
    simp [h]

set_option maxRecDepth 10000 in
/-- Witness for C6: the scenario document has rule confidence 0.9 ≥ 0.8,
so an adversarial capability result changes nothing and the external
call count is 0. -/
theorem C6_rules_only_short_circuit_witness :
    ((8 : ℚ)/10) ≤ (ClassificationService.rule_based_classification c8doc).confidence ∧
    ClassificationService.classify ((8 : ℚ)/10) ((5 : ℚ)/10) (some llmOracle0) c8doc =
      ClassificationService.classify ((8 : ℚ)/10) ((5 : ℚ)/10) none c8doc ∧
    ClassificationService.external_calls ((8 : ℚ)/10) ((5 : ℚ)/10) c8doc = 0 := by
  have h : ((8 : ℚ)/10) ≤
      (ClassificationService.rule_based_classification c8doc).confidence := by decide
  exact ⟨h,
    (C6_rules_only_short_circuit ((8 : ℚ)/10) ((5 : ℚ)/10) (some llmOracle0) none c8doc h).2.2.1,
    (C6_rules_only_short_circuit ((8 : ℚ)/10) ((5 : ℚ)/10) (some llmOracle0) none c8doc h).2.2.2⟩

/-- Claim C7: the report's `isSafe` equals (issues list empty) AND (the
external safety flag, when the verifier output is present, is true); and
when the external verification call fails (`none`), the rule-based flags
alone determine `isSafe`. -/
theorem C7_is_safe_formula :
    ∀ (orig : SegmentedDocument) (s : SimplificationResult) (g : LegalGuide)
      (oracle : Option VerifierOutput),
      ((SafetyCheckService.evaluate orig s g oracle).isSafe =
        ((SafetyCheckService.evaluate orig s g oracle).issues.isEmpty &&
          (match oracle with
           | some o => o.is_safe
           | none => true))) ∧
      ((SafetyCheckService.evaluate orig s g none).isSafe =
        (SafetyCheckService.evaluate orig s g none).ruleBasedFlags.isEmpty) := by
  intro orig s g oracle
  constructor
  · cases oracle with
    | none => simp [SafetyCheckService.evaluate]
    | some o => simp [SafetyCheckService.evaluate]
  · simp only [SafetyCheckService.evaluate]
    exact map_append_nil_isEmpty _ _

set_option maxRecDepth 10000 in
/-- Claim C8: on the scenario text with header SENTENCIA, a dismissal
clause and costs to the claimant, the classifier does return
docType = RESOLUCION_JURIDICA, docSubtype = SENTENCIA, provenance
RULES_ONLY and confidence 0.9 ≥ 0.8 for every capability behaviour, and
the operative clause is extracted verbatim; but the rewriter derives
whoWins = "actora", not the claimed "demandado" (the same shadowing bug
as in C1), while costs = "actora" is as claimed. -/
theorem C8_scenario_eval :
    ∀ oracle : Option ClassificationResult,
      (ClassificationService.classify ((8 : ℚ)/10) ((5 : ℚ)/10) oracle c8doc).docType =
        "RESOLUCION_JURIDICA" ∧
      (ClassificationService.classify ((8 : ℚ)/10) ((5 : ℚ)/10) oracle c8doc).docSubtype =
        "SENTENCIA" ∧
      (ClassificationService.classify ((8 : ℚ)/10) ((5 : ℚ)/10) oracle c8doc).source =
        "RULES_ONLY" ∧
      (ClassificationService.classify ((8 : ℚ)/10) ((5 : ℚ)/10) oracle c8doc).confidence =
        (9 : ℚ)/10 ∧
      extract_fallo_literal c8doc.normalizedText = some c8fallo ∧
      SimplificationService.derive_decision_from_fallo (some c8fallo) =
        ("actora", "actora") := by
  intro oracle
  have h : ((8 : ℚ)/10) ≤
      (ClassificationService.rule_based_classification c8doc).confidence := by decide
  have hc : ClassificationService.classify ((8 : ℚ)/10) ((5 : ℚ)/10) oracle c8doc =
      ClassificationService.rule_based_classification c8doc := by
    unfold ClassificationService.classify
    simp [h]
  rw [hc]
  refine ⟨by decide, by decide, rfl, by decide, by decide, by decide⟩

/-- Claim C9 (amended): `normalize` is not side-effect free: besides
returning the new `SegmentedDocument` it writes the extracted operative
clause into the input `IngestResult`'s `metadata.extra` under the key
"falloLiteral" (when one is found); every other field of the input is
left unchanged, and the returned document aliases the updated metadata. -/
theorem C9_normalize_metadata_write :
    ∀ (ing : IngestResult) (seg : SegmentedDocument) (ing2 : IngestResult),
      NormalizationService.normalize ing = Except.ok (seg, ing2) →
      ing2.rawText = ing.rawText ∧
      ing2.metadata.sourceType = ing.metadata.sourceType ∧
      ing2.metadata.language = ing.metadata.language ∧
      ing2.metadata.pageCount = ing.metadata.pageCount ∧
      ing2.metadata.charLength = ing.metadata.charLength ∧
      (ing2.metadata.extra =
        match extract_fallo_literal (NormalizationService.clean_text ing.rawText) with
        | some f =>
          if f = "" then ing.metadata.extra
          else dictSet ing.metadata.extra "falloLiteral" f
        | none => ing.metadata.extra) ∧
      seg.metadata = some ing2.metadata := by
  intro ing seg ing2 h
  unfold NormalizationService.normalize at h
  by_cases he : ing.rawText = ""
  · rw [if_pos he] at h
    exact absurd h (by simp)
  · rw [if_neg he] at h
    simp only [Except.ok.injEq, Prod.mk.injEq] at h
    obtain ⟨hseg, hing⟩ := h
    subst hseg hing
    cases hf : extract_fallo_literal (NormalizationService.clean_text ing.rawText) with
    | none => simp [hf]
    | some f =>
      by_cases hfe : f = ""
      · simp [hf, hfe]
      · simp [hf, hfe]

/-- Witness for C9 at the concrete ingest fixture: the hypothesis of the
amended theorem holds by computation and the post-state carries the
written key. -/
theorem C9_normalize_metadata_write_witness :
    c9ing1.rawText = c9ing.rawText ∧
    c9ing1.metadata.sourceType = c9ing.metadata.sourceType ∧
    c9ing1.metadata.language = c9ing.metadata.language ∧
    c9ing1.metadata.pageCount = c9ing.metadata.pageCount ∧
    c9ing1.metadata.charLength = c9ing.metadata.charLength ∧
    (c9ing1.metadata.extra =
      match extract_fallo_literal (NormalizationService.clean_text c9ing.rawText) with
      | some f =>
        if f = "" then c9ing.metadata.extra
        else dictSet c9ing.metadata.extra "falloLiteral" f
      | none => c9ing.metadata.extra) ∧
    c9seg.metadata = some c9ing1.metadata :=
  C9_normalize_metadata_write c9ing c9seg c9ing1 (by rfl)

/-- Counterexample for C9 as stated: on a document with an extractable
FALLO clause, the `IngestResult` passed to `normalize` does not come out
unchanged — its metadata gains the `falloLiteral` entry. -/
theorem C9_input_mutated_cx :
    normPost c9ing = some c9ing1 ∧ c9ing1 ≠ c9ing := by
  constructor
  · rfl
  · decide

/-- Claim C10: whenever the original document's metadata carries no
non-empty `falloLiteral`, the rule flags include MISSING_FALLO_LITERAL
and the report is unsafe for every rewrite, guide and verifier
behaviour. -/
theorem C10_missing_fallo_unsafe :
    ∀ (orig : SegmentedDocument) (s : SimplificationResult) (g : LegalGuide)
      (oracle : Option VerifierOutput),
      (SafetyCheckService.safety_fallo_literal orig).getD "" = "" →
      "MISSING_FALLO_LITERAL" ∈ SafetyCheckService.rule_based_flags orig s ∧
      (SafetyCheckService.evaluate orig s g oracle).isSafe = false := by
  intro orig s g oracle h
  have hmem : "MISSING_FALLO_LITERAL" ∈ SafetyCheckService.rule_based_flags orig s := by
    simp only [SafetyCheckService.rule_based_flags, h, if_pos, List.mem_append,
      List.singleton_append]
    simp
  refine ⟨hmem, ?_⟩
  have hne : ((SafetyCheckService.rule_based_flags orig s ++
      SafetyCheckService.guide_flags s g).isEmpty) = false := by
    cases hc : SafetyCheckService.rule_based_flags orig s with
    | nil => rw [hc] at hmem; exact absurd hmem (by simp)
    | cons a l => simp [hc]
  simp only [SafetyCheckService.evaluate]
  cases oracle with
  | none =>
    simp only []
    cases hc : (SafetyCheckService.rule_based_flags orig s ++
        SafetyCheckService.guide_flags s g) with
    | nil => rw [hc] at hne; simp at hne
    | cons a l => simp [hc]
  | some o =>
    cases hc : (SafetyCheckService.rule_based_flags orig s ++
        SafetyCheckService.guide_flags s g) with
    | nil => rw [hc] at hne; simp at hne
    | cons a l => simp [hc]

/-- Witness for C10: the scenario document has no metadata at all, so
its report is unsafe even though the verifier said safe. -/
theorem C10_missing_fallo_unsafe_witness :
    "MISSING_FALLO_LITERAL" ∈ SafetyCheckService.rule_based_flags c3orig c3simp ∧
    (SafetyCheckService.evaluate c3orig c3simp g0 (some verOut0)).isSafe = false :=
  C10_missing_fallo_unsafe c3orig c3simp g0 (some verOut0) rfl
